import Mathlib

/-!
Verification development for the wandelbadge-app server (`server.js`).

The development shallowly embeds the parts of the server that the checked
properties are about:

* JavaScript objects are modelled as association lists of string keys and
  `JVal` values; the object spread `{...a, ...b}` is list append with a
  last-occurrence-wins lookup, matching JavaScript's later-key-wins
  semantics for duplicate keys.
* JavaScript numbers are modelled as rationals (floating-point rounding,
  `NaN` and the infinities are outside the model; every number the claims
  touch is exactly representable).  String lengths are modelled as
  character counts (JavaScript counts UTF-16 code units; the two agree on
  all strings appearing in the claims).
* `validateConfig`, `DEFAULT_CONFIG`, the `POST /api/config` handler, the
  WebSocket message handler and `checkWsRateLimit` are embedded as pure
  state-passing functions.  File persistence (`saveConfig`) and the
  broadcast fan-out are I/O at the boundary; the embedding records the
  decisions the handlers make (accept/reject, reply, whether a broadcast
  is triggered) and the registry state they leave behind.
* `renderBadge` is embedded as a function from a (typed, complete)
  configuration and the outcome of the two external image decodes to the
  list of drawing operations the renderer issues, in source order,
  carrying the computed geometry and strings; canvas rasterisation
  itself is the external collaborator.
-/

set_option maxHeartbeats 1000000
set_option maxRecDepth 4000

/-- A JavaScript value as it can appear in a configuration field:
a number, a string, a boolean or `null`. -/
inductive JVal where
  | num (q : ℚ)
  | str (s : String)
  | bool (b : Bool)
  | null
deriving DecidableEq

/-- A JavaScript object, as an association list in insertion order.
Duplicate keys are allowed (a later entry overrides an earlier one,
as in object literals and spreads). -/
abbrev Obj := List (String × JVal)

/-- Property read `o[k]`: the value of the last entry for `k`, if any. -/
def jLookup : Obj → String → Option JVal
  | [], _ => none
  | (k', v) :: rest, k =>
    match jLookup rest k with
    | some w => some w
    | none => if k = k' then some v else none

/-- The keys of an object, in entry order (with duplicates). -/
def jKeys (o : Obj) : List String := o.map Prod.fst

/-- The object spread `{...a, ...b}`: entries of `a` then entries of `b`,
later entries winning on lookup. -/
def jsSpread (a b : Obj) : Obj := a ++ b

/-- Key list with duplicates removed, keeping first occurrences: the order
in which `for (const key in data)` visits the keys of the object built
from these entries (all keys involved are non-integer-like strings, so
JavaScript uses insertion order). -/
def firstDedup (l : List String) : List String :=
  l.foldl (fun acc k => if k ∈ acc then acc else acc ++ [k]) []

/-- JavaScript truthiness of a modelled value (`NaN` is outside the model). -/
def jTruthy : JVal → Bool
  | .num q => decide (q ≠ 0)
  | .str s => decide (s ≠ "")
  | .bool b => b
  | .null => false

/-- Character class `[0-9A-Fa-f]`. -/
def hexDigit (c : Char) : Bool :=
  (decide ('0' ≤ c) && decide (c ≤ '9')) ||
  (decide ('A' ≤ c) && decide (c ≤ 'F')) ||
  (decide ('a' ≤ c) && decide (c ≤ 'f'))

/-- The test `/^#[0-9A-Fa-f]{6}$/.test(v)` of the `color` validator. -/
def isHexColor (s : String) : Bool :=
  match s.toList with
  | '#' :: rest => (rest.length == 6) && rest.all hexDigit
  | _ => false

/-- The `validators` table of `validateConfig` (server.js lines 55-103):
for each recognized field name, the per-field predicate.  `typeof v ===
'number'` / `'string'` / `'boolean'` and `v === null` are the constructor
tests on `JVal`. -/
def validators : String → Option (JVal → Bool)
  | "km" => some fun v => match v with
      | .num q => decide (0 ≤ q) && decide (q ≤ 1000000)
      | _ => false
  | "target" => some fun v => match v with
      | .num q => decide (0 < q) && decide (q ≤ 1000000)
      | _ => false
  | "day" => some fun v => match v with
      | .num _ => true
      | .str s => (s == "") || decide (s.length ≤ 10)
      | _ => false
  | "steps" => some fun v => match v with
      | .num _ => true
      | .str s => (s == "") || decide (s.length ≤ 20)
      | _ => false
  | "title" => some fun v => match v with
      | .str s => decide (s.length ≤ 100)
      | _ => false
  | "yearText" => some fun v => match v with
      | .str s => decide (s.length ≤ 20)
      | _ => false
  | "handle" => some fun v => match v with
      | .str s => decide (s.length ≤ 50)
      | _ => false
  | "titleFont" => some fun v => match v with
      | .str s => decide (s.length ≤ 50)
      | _ => false
  | "yearFont" => some fun v => match v with
      | .str s => decide (s.length ≤ 50)
      | _ => false
  | "kmFont" => some fun v => match v with
      | .str s => decide (s.length ≤ 50)
      | _ => false
  | "goalFont" => some fun v => match v with
      | .str s => decide (s.length ≤ 50)
      | _ => false
  | "titleSize" => some fun v => match v with
      | .num q => decide (20 ≤ q) && decide (q ≤ 200)
      | _ => false
  | "yearSize" => some fun v => match v with
      | .num q => decide (50 ≤ q) && decide (q ≤ 500)
      | _ => false
  | "kmSize" => some fun v => match v with
      | .num q => decide (40 ≤ q) && decide (q ≤ 200)
      | _ => false
  | "goalSize" => some fun v => match v with
      | .num q => decide (20 ≤ q) && decide (q ≤ 100)
      | _ => false
  | "iconSize" => some fun v => match v with
      | .num q => decide (40 ≤ q) && decide (q ≤ 200)
      | _ => false
  | "opacity" => some fun v => match v with
      | .num q => decide (0 ≤ q) && decide (q ≤ 1)
      | _ => false
  | "wScale" => some fun v => match v with
      | .num q => decide (mkRat 1 2 ≤ q) && decide (q ≤ 2)
      | _ => false
  | "hScale" => some fun v => match v with
      | .num q => decide (mkRat 1 2 ≤ q) && decide (q ≤ 2)
      | _ => false
  | "yPos" => some fun v => match v with
      | .num q => decide (0 ≤ q) && decide (q ≤ 2000)
      | _ => false
  | "showTitle" => some fun v => match v with | .bool _ => true | _ => false
  | "showYear" => some fun v => match v with | .bool _ => true | _ => false
  | "showLogo" => some fun v => match v with | .bool _ => true | _ => false
  | "titleBold" => some fun v => match v with | .bool _ => true | _ => false
  | "titleItalic" => some fun v => match v with | .bool _ => true | _ => false
  | "titleCheck" => some fun v => match v with | .bool _ => true | _ => false
  | "yearBold" => some fun v => match v with | .bool _ => true | _ => false
  | "yearItalic" => some fun v => match v with | .bool _ => true | _ => false
  | "kmBold" => some fun v => match v with | .bool _ => true | _ => false
  | "kmItalic" => some fun v => match v with | .bool _ => true | _ => false
  | "goalBold" => some fun v => match v with | .bool _ => true | _ => false
  | "goalItalic" => some fun v => match v with | .bool _ => true | _ => false
  | "color" => some fun v => match v with
      | .str s => isHexColor s
      | _ => false
  | "theme" => some fun v => match v with
      | .str s => (s == "light") || (s == "dark")
      | _ => false
  | "logoType" => some fun v => match v with
      | .str s => (s == "fightcancer") || (s == "custom")
      | _ => false
  | "icon" => some fun v => match v with
      | .str s => decide (s.length ≤ 10)
      | _ => false
  | "weather" => some fun v => match v with
      | .str s => decide (s.length ≤ 10)
      | _ => false
  | "terrain" => some fun v => match v with
      | .str s => decide (s.length ≤ 10)
      | _ => false
  | "customLogoBase64" => some fun v => match v with
      | .null => true
      | .str s => decide (s.length ≤ 5000000) && s.startsWith "data:image/"
      | _ => false
  | "bgImage" => some fun v => match v with | .null => true | _ => false
  | "customLogoImg" => some fun v => match v with | .null => true | _ => false
  | "fightCancerLogoImg" => some fun v => match v with | .null => true | _ => false
  | "badgeOffsetX" => some fun v => match v with | .num _ => true | _ => false
  | "badgeOffsetY" => some fun v => match v with | .num _ => true | _ => false
  | "logoOffsetX" => some fun v => match v with | .num _ => true | _ => false
  | "logoOffsetY" => some fun v => match v with | .num _ => true | _ => false
  | "autoDay" => some fun v => match v with | .bool _ => true | _ => false
  | _ => none

/-- The key loop of `validateConfig` (server.js lines 105-111): visit each
key; if the key has a validator and its value fails, throw `Invalid value
for <key>`; keys without a validator are ignored.  A key absent from the
object is skipped (it never occurs: the loop is run on the object's own
keys). -/
def validateFields : List String → Obj → Except String Unit
  | [], _ => .ok ()
  | k :: ks, o =>
    match validators k with
    | none => validateFields ks o
    | some p =>
      match jLookup o k with
      | none => validateFields ks o
      | some v =>
        if p v then validateFields ks o
        else .error ("Invalid value for " ++ k)

/-- `validateConfig` (server.js lines 50-114) applied to an object:
iterate the object's own keys in insertion order and check each
recognized field.  Success is `ok` (the source returns `true`). -/
def validateConfig (o : Obj) : Except String Unit :=
  validateFields (firstDedup (jKeys o)) o

/-- An arbitrary JavaScript argument to `validateConfig`: either an object
or a primitive value. -/
inductive JInput where
  | object (o : Obj)
  | prim (v : JVal)

/-- Whether a `JInput` is an object. -/
def JInput.isObj : JInput → Bool
  | .object _ => true
  | .prim _ => false

/-- Full `validateConfig` including the leading
`if (!data || typeof data !== 'object') throw` guard: every primitive is
rejected (`null` is falsy; other primitives have non-object `typeof`),
every object passes the guard (objects are truthy) and is checked
field-by-field. -/
def validateConfigTop : JInput → Except String Unit
  | .prim _ => .error "Config must be an object"
  | .object o => validateConfig o

/-- `DEFAULT_CONFIG` (server.js lines 369-419) as an object literal, in
source order.  The source literal repeats the `wScale` and `hScale` keys
with identical values (lines 409-412); both entries are kept, matching
later-wins literal semantics.  Fractional literals are written with
`mkRat`: `opacity: 0.90`, `hScale: 0.9`. -/
def DEFAULT_CONFIG : Obj :=
  [ ("title", .str "WandelChallenge"),
    ("showTitle", .bool true),
    ("titleFont", .str "Inter"),
    ("titleSize", .num 52),
    ("titleBold", .bool true),
    ("titleItalic", .bool false),
    ("titleCheck", .bool false),
    ("yearText", .str "2026"),
    ("yearFont", .str "Inter"),
    ("yearBold", .bool true),
    ("yearItalic", .bool false),
    ("yearSize", .num 180),
    ("showYear", .bool true),
    ("km", .num 25),
    ("kmFont", .str "Inter"),
    ("kmSize", .num 85),
    ("kmBold", .bool true),
    ("kmItalic", .bool false),
    ("target", .num 2026),
    ("day", .str ""),
    ("steps", .str ""),
    ("handle", .str ""),
    ("color", .str "#10b981"),
    ("theme", .str "light"),
    ("icon", .str ""),
    ("iconSize", .num 95),
    ("goalFont", .str "Inter"),
    ("goalSize", .num 45),
    ("goalBold", .bool true),
    ("goalItalic", .bool false),
    ("opacity", .num (mkRat 9 10)),
    ("showLogo", .bool true),
    ("logoType", .str "fightcancer"),
    ("customLogoBase64", .null),
    ("bgImage", .null),
    ("customLogoImg", .null),
    ("fightCancerLogoImg", .null),
    ("weather", .str ""),
    ("terrain", .str ""),
    ("wScale", .num 1),
    ("hScale", .num (mkRat 9 10)),
    ("wScale", .num 1),
    ("hScale", .num (mkRat 9 10)),
    ("yPos", .num 1300),
    ("badgeOffsetX", .num 0),
    ("badgeOffsetY", .num 0),
    ("logoOffsetX", .num 0),
    ("logoOffsetY", .num 0),
    ("autoDay", .bool true) ]

/-- Whether a recognized field present in `o` passes its validator
(fields that are absent or unrecognized pass vacuously). -/
def fieldOk (o : Obj) (k : String) : Bool :=
  match validators k, jLookup o k with
  | some p, some v => p v
  | _, _ => true

/-- The registry: `currentConfig` and `isDefault` (server.js lines 421-422). -/
structure RegistryState where
  currentConfig : Obj
  isDefault : Bool
deriving DecidableEq

/-- Outcome of `POST /api/config`: `sendStatus(200)` or
`status(400).json({error})`. -/
inductive PostResponse where
  | ok
  | badRequest (error : String)
deriving DecidableEq

/-- The `POST /api/config` handler (server.js lines 461-481): merge the
body over the defaults, validate; on success swap the registry (clearing
the default flag), on a validation error leave the registry as it was and
answer 400 with the error message.  The broadcast and the queued durable
write on the success path are boundary I/O. -/
def postConfigHandler (st : RegistryState) (body : Obj) :
    RegistryState × PostResponse :=
  let mergedConfig := jsSpread DEFAULT_CONFIG body
  match validateConfig mergedConfig with
  | .ok _ => ({ currentConfig := mergedConfig, isDefault := false }, .ok)
  | .error e => (st, .badRequest e)

/-- The `GET /api/config` handler (server.js lines 441-443). -/
def getConfigHandler (st : RegistryState) : Obj := st.currentConfig

/-- Per-connection rate-limit record stored in `wsMessageLimits`. -/
structure WsLimitEntry where
  count : Nat
  resetTime : Nat
deriving DecidableEq

/-- `WS_RATE_LIMIT` (server.js line 28): messages per window. -/
def WS_RATE_LIMIT : Nat := 10

/-- `WS_WINDOW_MS` (server.js line 29): window length in milliseconds. -/
def WS_WINDOW_MS : Nat := 1000

/-- `checkWsRateLimit` (server.js lines 484-498) for one connection:
`entry` is the map entry for the connection (`none` if absent), `now` is
`Date.now()`.  Returns the updated entry and whether the message is
within the limit. -/
def checkWsRateLimit (now : Nat) (entry : Option WsLimitEntry) :
    WsLimitEntry × Bool :=
  let c0 := entry.getD ⟨0, now + WS_WINDOW_MS⟩
  let c1 := if c0.resetTime ≤ now then (⟨0, now + WS_WINDOW_MS⟩ : WsLimitEntry) else c0
  let c2 : WsLimitEntry := ⟨c1.count + 1, c1.resetTime⟩
  (c2, decide (c2.count ≤ WS_RATE_LIMIT))

/-- An inbound WebSocket message, after the transport: a parsed
`SET_CONFIG` payload, a parsed payload of any other type, or bytes that
`JSON.parse` rejects (carrying the parse error's message). -/
inductive WsIncoming where
  | setConfig (data : Obj)
  | otherType
  | malformed (parseError : String)

/-- Externally visible effects of handling one WebSocket message:
the in-band reply sent to this connection (the `ERROR` payload's message,
if any), whether the new configuration is broadcast to the other clients,
and whether the handler closes the connection (it never does). -/
structure WsEffects where
  reply : Option String
  broadcastOthers : Bool
  closed : Bool
deriving DecidableEq

/-- The `ws.on('message')` handler (server.js lines 505-532): rate-limit
check first (answering in-band and stopping when over the limit), then
parse; a `SET_CONFIG` payload is merged over the defaults and validated —
on success the registry is swapped and broadcast to the other clients, on
a validation (or parse) error the registry is untouched and the error
message is sent back in-band.  The connection is never closed. -/
def wsOnMessage (now : Nat) (entry : Option WsLimitEntry)
    (st : RegistryState) (msg : WsIncoming) :
    WsLimitEntry × RegistryState × WsEffects :=
  let res := checkWsRateLimit now entry
  if !res.2 then
    (res.1, st, ⟨some "Rate limit exceeded. Please slow down.", false, false⟩)
  else
    match msg with
    | .malformed e => (res.1, st, ⟨some e, false, false⟩)
    | .otherType => (res.1, st, ⟨none, false, false⟩)
    | .setConfig data =>
      let mergedConfig := jsSpread DEFAULT_CONFIG data
      match validateConfig mergedConfig with
      | .ok _ => (res.1, ⟨mergedConfig, false⟩, ⟨none, true, false⟩)
      | .error e => (res.1, st, ⟨some e, false, false⟩)

/-- One step of feeding a timed message to the connection: threads the
rate-limit entry and the registry, and records the effects. -/
def wsRunStep (acc : Option WsLimitEntry × RegistryState × List WsEffects)
    (m : Nat × WsIncoming) :
    Option WsLimitEntry × RegistryState × List WsEffects :=
  let r := wsOnMessage m.1 acc.1 acc.2.1 m.2
  (some r.1, r.2.1, acc.2.2 ++ [r.2.2])

/-- Feed a sequence of timed messages from one freshly connected client
(no rate-limit entry yet) through the handler. -/
def wsRun (st0 : RegistryState) (msgs : List (Nat × WsIncoming)) :
    Option WsLimitEntry × RegistryState × List WsEffects :=
  msgs.foldl wsRunStep (none, st0, [])

/-- A complete, registry-shaped configuration as the render path reads it:
one typed field per `DEFAULT_CONFIG` key that `renderBadge` consumes,
plus `bgImageBase64`, which is absent from the defaults and the validator
table but is read by the renderer (a client can attach it through the
spread).  The always-`null` placeholder fields (`bgImage`,
`customLogoImg`, `fightCancerLogoImg`) are not read by the renderer and
are omitted.  `day` and `steps` may be a number or a string and keep the
`JVal` type.  `none` for an `Option String` field models an absent or
`null` property. -/
structure Config where
  title : String
  showTitle : Bool
  titleFont : String
  titleSize : ℚ
  titleBold : Bool
  titleItalic : Bool
  titleCheck : Bool
  yearText : String
  yearFont : String
  yearBold : Bool
  yearItalic : Bool
  yearSize : ℚ
  showYear : Bool
  km : ℚ
  kmFont : String
  kmSize : ℚ
  kmBold : Bool
  kmItalic : Bool
  target : ℚ
  day : JVal
  steps : JVal
  handle : String
  color : String
  theme : String
  icon : String
  iconSize : ℚ
  goalFont : String
  goalSize : ℚ
  goalBold : Bool
  goalItalic : Bool
  opacity : ℚ
  showLogo : Bool
  logoType : String
  customLogoBase64 : Option String
  bgImageBase64 : Option String
  weather : String
  terrain : String
  wScale : ℚ
  hScale : ℚ
  yPos : ℚ
  badgeOffsetX : ℚ
  badgeOffsetY : ℚ
  logoOffsetX : ℚ
  logoOffsetY : ℚ
  autoDay : Bool
deriving DecidableEq

/-- `DEFAULT_CONFIG` in the typed render view (same values as the object
literal). -/
def defaultConfig : Config where
  title := "WandelChallenge"
  showTitle := true
  titleFont := "Inter"
  titleSize := 52
  titleBold := true
  titleItalic := false
  titleCheck := false
  yearText := "2026"
  yearFont := "Inter"
  yearBold := true
  yearItalic := false
  yearSize := 180
  showYear := true
  km := 25
  kmFont := "Inter"
  kmSize := 85
  kmBold := true
  kmItalic := false
  target := 2026
  day := .str ""
  steps := .str ""
  handle := ""
  color := "#10b981"
  theme := "light"
  icon := ""
  iconSize := 95
  goalFont := "Inter"
  goalSize := 45
  goalBold := true
  goalItalic := false
  opacity := mkRat 9 10
  showLogo := true
  logoType := "fightcancer"
  customLogoBase64 := none
  bgImageBase64 := none
  weather := ""
  terrain := ""
  wScale := 1
  hScale := mkRat 9 10
  yPos := 1300
  badgeOffsetX := 0
  badgeOffsetY := 0
  logoOffsetX := 0
  logoOffsetY := 0
  autoDay := true

/-- The JavaScript `v || d` idiom on numbers: `0` is falsy and falls back
to the default (`NaN` is outside the model). -/
def jsOr (v d : ℚ) : ℚ := if v = 0 then d else v

/-- Truthiness of an optional string property: absent (`undefined`) and
the empty string are falsy. -/
def strOptTruthy : Option String → Bool
  | some s => decide (s ≠ "")
  | none => false

/-- JavaScript `parseInt` applied to a non-negative number: the number is
converted to its decimal string and the leading integer digits are
parsed, which for `0` and for numbers in fixed notation (every number
at least `10⁻⁶`, hence every value the claims touch) is truncation. -/
def jsParseInt (q : ℚ) : ℤ := ⌊q⌋

/-- JavaScript `Math.round`: round half toward positive infinity. -/
def jsRound (q : ℚ) : ℤ := ⌊q + 1 / 2⌋

/-- The progress ratio (server.js line 205):
`Math.min(parseInt(config.km || 0) / config.target, 1)`. -/
def rendPerc (c : Config) : ℚ :=
  min ((jsParseInt (jsOr c.km 0) : ℚ) / c.target) 1

/-- `wScale = config.wScale || 1.0` (server.js line 182). -/
def cardWScale (c : Config) : ℚ := jsOr c.wScale 1

/-- `hScale = config.hScale || 0.9` (server.js line 183). -/
def cardHScale (c : Config) : ℚ := jsOr c.hScale (9 / 10)

/-- Card width `wW = (canvas.width - 2*100) * wScale` (lines 180-193). -/
def cardW (c : Config) : ℚ := (1080 - 2 * 100) * cardWScale c

/-- Card height `wH = 760 * hScale` (line 194). -/
def cardH (c : Config) : ℚ := 760 * cardHScale c

/-- Card left edge `wX = (canvas.width - wW) / 2` (line 195). -/
def cardX (c : Config) : ℚ := (1080 - cardW c) / 2

/-- Card top edge `wY = canvas.height - (config.yPos || 1300)`
(lines 184, 196). -/
def cardY (c : Config) : ℚ := 1920 - jsOr c.yPos 1300

/-- Badge centre x (line 219). -/
def badgeX (c : Config) : ℚ :=
  cardX c + cardW c - 60 + jsOr c.badgeOffsetX 0 * cardWScale c

/-- Badge centre y (line 220). -/
def badgeY (c : Config) : ℚ :=
  cardY c + 60 + jsOr c.badgeOffsetY 0 * cardWScale c

/-- The percentage caption on the circular badge (line 229):
`Math.round(perc * 100)` followed by a percent sign. -/
def percStr (c : Config) : String :=
  toString (jsRound (rendPerc c * 100)) ++ "%"

/-- Icon/title block anchor (line 233): icon presence shifts it. -/
def contentStartY (c : Config) : ℚ :=
  if c.icon ≠ "" then cardY c + 130 else cardY c + 60

/-- Progress bar left edge `bX` (line 272). -/
def barX (c : Config) : ℚ := cardX c + 80 * cardWScale c

/-- Progress bar top edge `bY` (line 273): icon presence shifts it. -/
def barY (c : Config) : ℚ :=
  if c.icon ≠ "" then cardY c + 310 else cardY c + 240

/-- Progress bar track width `bW` (line 274). -/
def barW (c : Config) : ℚ := cardW c - 160 * cardWScale c

/-- First bottom-stats baseline (line 295). -/
def bottomY (c : Config) : ℚ :=
  if c.icon ≠ "" then barY c + 255 else barY c + 235

/-- Baseline for the steps line: the day line, when drawn, advances the
cursor by 55 (line 301). -/
def stepsY (c : Config) : ℚ :=
  if jTruthy c.day then bottomY c + 55 else bottomY c

/-- Baseline cursor for the handle line: the steps line, when drawn,
advances it by 55 (line 308). -/
def handleY (c : Config) : ℚ :=
  if jTruthy c.steps then stepsY c + 55 else stepsY c

/-- One drawing operation issued by `renderBadge`, carrying the computed
geometry and text the operation draws. -/
inductive DrawOp where
  | bgImage
  | card (x y w h radius : ℚ)
  | yearText (s : String)
  | badgeCircle (x y radius : ℚ)
  | percText (s : String) (x y : ℚ)
  | klaarText (x y : ℚ)
  | iconGlyph (s : String) (y : ℚ)
  | titleText (s : String)
  | checkMark
  | barTrack (x y w h : ℚ)
  | barFill (x y w h : ℚ)
  | kmText (km : ℚ) (x y : ℚ)
  | goalText (target : ℚ) (x y : ℚ)
  | dayText (v : JVal) (y : ℚ)
  | stepsText (v : JVal) (y : ℚ)
  | handleText (s : String) (y : ℚ)
  | weatherText (w t : String)
  | logo
  | toBuffer
deriving DecidableEq

/-- Whether an operation draws the background image. -/
def DrawOp.isBg : DrawOp → Bool
  | .bgImage => true
  | _ => false

/-- Whether an operation draws the logo. -/
def DrawOp.isLogo : DrawOp → Bool
  | .logo => true
  | _ => false

/-- Outcome of the two external image decodes (`loadImage`) a render can
attempt: whether the background decode and the logo decode succeed. -/
structure DecodeEnv where
  bgOk : Bool
  logoOk : Bool
deriving DecidableEq

/-- Background segment (server.js lines 169-178): drawn when a background
payload is present and its decode succeeds; a decode failure is caught
and logged, drawing nothing. -/
def bgSeg (c : Config) (env : DecodeEnv) : List DrawOp :=
  if strOptTruthy c.bgImageBase64 && env.bgOk then [.bgImage] else []

/-- The decode-independent middle of the render (server.js lines 198-324),
in source order: card, year text, circular badge with percentage and
caption, icon, title with optional check mark, progress track, progress
fill (only when the ratio exceeds 0.01, with a 54px floor), distance and
goal texts (thousands-formatted at draw time), conditional day/steps/
handle lines, weather/terrain glyphs. -/
def coreSeg (c : Config) : List DrawOp :=
  [DrawOp.card (cardX c) (cardY c) (cardW c) (cardH c) (80 * cardWScale c)]
  ++ (if c.showYear ∧ c.yearText ≠ "" then [DrawOp.yearText c.yearText] else [])
  ++ [DrawOp.badgeCircle (badgeX c) (badgeY c) (95 * cardWScale c),
      DrawOp.percText (percStr c) (badgeX c) (badgeY c + 5),
      DrawOp.klaarText (badgeX c) (badgeY c + 45)]
  ++ (if c.icon ≠ "" then [DrawOp.iconGlyph c.icon (contentStartY c)] else [])
  ++ (if c.showTitle ∧ c.title ≠ "" then
        [DrawOp.titleText c.title]
        ++ (if c.titleCheck then [DrawOp.checkMark] else [])
      else [])
  ++ [DrawOp.barTrack (barX c) (barY c) (barW c) 55]
  ++ (if rendPerc c > 1 / 100 then
        [DrawOp.barFill (barX c) (barY c) (max (barW c * rendPerc c) 54) 55]
      else [])
  ++ [DrawOp.kmText (jsOr c.km 0) (barX c) (barY c + 160),
      DrawOp.goalText c.target (barX c + barW c) (barY c + 160)]
  ++ (if jTruthy c.day then [DrawOp.dayText c.day (bottomY c)] else [])
  ++ (if jTruthy c.steps then [DrawOp.stepsText c.steps (stepsY c)] else [])
  ++ (if c.handle ≠ "" then [DrawOp.handleText c.handle (handleY c + 10)] else [])
  ++ (if c.weather ≠ "" ∨ c.terrain ≠ "" then [DrawOp.weatherText c.weather c.terrain] else [])

/-- Logo segment (server.js lines 326-346): when enabled, the built-in
file or the user payload is decoded inside a try/catch; a decode failure
is caught and logged, drawing nothing; a `custom` logo with no payload
resolves to no image. -/
def logoSeg (c : Config) (env : DecodeEnv) : List DrawOp :=
  if c.showLogo then
    if c.logoType = "fightcancer" then
      (if env.logoOk then [.logo] else [])
    else if c.logoType = "custom" ∧ strOptTruthy c.customLogoBase64 then
      (if env.logoOk then [.logo] else [])
    else []
  else []

/-- `renderBadge` (server.js lines 165-349) as the list of drawing
operations it issues, ending with the PNG serialisation
(`canvas.toBuffer`). -/
def renderOps (c : Config) (env : DecodeEnv) : List DrawOp :=
  bgSeg c env ++ coreSeg c ++ logoSeg c env ++ [DrawOp.toBuffer]

/-- The operations a fully successful render (both decodes succeed)
keeps when the decodes instead come out as `env`: a failed background
decode removes exactly the background ops, a failed logo decode exactly
the logo ops. -/
def keepOp (env : DecodeEnv) (op : DrawOp) : Bool :=
  (env.bgOk || !op.isBg) && (env.logoOk || !op.isLogo)

/-- Decimal digits of `n`, least significant first, via repeated division
(fuel-structured so the kernel can evaluate it; `fuel ≥ n` suffices). -/
def digitsRevAux (fuel n : Nat) : List Nat :=
  match fuel with
  | 0 => [n]
  | fuel + 1 => if n < 10 then [n] else n % 10 :: digitsRevAux fuel (n / 10)

/-- Decimal digits of `n`, least significant first. -/
def digitsRev (n : Nat) : List Nat := digitsRevAux n n

/-- `num.toString()` for a natural number, as a character list. -/
def natToChars (n : Nat) : List Char :=
  (digitsRev n).reverse.map Nat.digitChar

/-- One block of the separator regex replacement: a separator lands before
position `i` exactly when `i` is not the start (`\B`) and the remaining
digit count is a positive multiple of 3 (`(?=(\d{3})+(?!\d))`). -/
def sepBlock (len : Nat) (ic : Nat × Char) : List Char :=
  if ic.1 != 0 && (len - ic.1) % 3 == 0 then ['.', ic.2] else [ic.2]

/-- Apply the regex `\B(?=(\d{3})+(?!\d))` → `"."` replacement to a digit
string. -/
def groupThrees (s : List Char) : List Char :=
  (s.enum.map (sepBlock s.length)).flatten

/-- `formatNumber` (server.js lines 146-148) on a natural number: `0` is
falsy and yields `"0"`; otherwise the decimal digits are grouped in
threes from the right with `"."`. -/
def formatNumber (n : Nat) : String :=
  if n = 0 then "0" else String.mk (groupThrees (natToChars n))

theorem jLookup_append (a b : Obj) (k : String) :
    jLookup (a ++ b) k =
      match jLookup b k with
      | some v => some v
      | none => jLookup a k := by
  induction a with
  | nil =>
    cases h : jLookup b k <;> simp [jLookup, h]
  | cons hd a ih =>
    rcases hd with ⟨k', v⟩
    cases hb : jLookup b k <;> cases ha : jLookup a k <;>
      simp [List.cons_append, jLookup, ih, hb, ha]

theorem jKeys_append (a b : Obj) : jKeys (a ++ b) = jKeys a ++ jKeys b :=
  List.map_append _ a b

theorem jLookup_isSome_iff (o : Obj) (k : String) :
    (jLookup o k).isSome ↔ k ∈ jKeys o := by
  induction o with
  | nil => simp [jLookup, jKeys]
  | cons hd o ih =>
    rcases hd with ⟨k', v⟩
    rw [jKeys] at ih ⊢
    simp only [List.map_cons, List.mem_cons]
    rw [jLookup]
    cases h : jLookup o k with
    | some w =>
      rw [h] at ih
      simp only [Option.isSome_some, true_iff] at ih
      dsimp only
      simp only [Option.isSome_some, true_iff]
      exact Or.inr ih
    | none =>
      rw [h] at ih
      simp only [Option.isSome_none, Bool.false_eq_true, false_iff] at ih
      dsimp only
      by_cases hk : k = k'
      · simp only [if_pos hk, Option.isSome_some, true_iff]
        exact Or.inl hk
      · simp only [if_neg hk, Option.isSome_none, Bool.false_eq_true, false_iff]
        rintro (rfl | hmem)
        · exact hk rfl
        · exact ih hmem

theorem mem_foldl_dedup (l : List String) :
    ∀ (acc : List String) (x : String),
      x ∈ l.foldl (fun acc k => if k ∈ acc then acc else acc ++ [k]) acc ↔
        x ∈ acc ∨ x ∈ l := by
  induction l with
  | nil => simp
  | cons k l ih =>
    intro acc x
    simp only [List.foldl_cons, ih, List.mem_cons]
    by_cases hk : k ∈ acc
    · simp only [if_pos hk]
      constructor
      · rintro (h | h)
        · exact Or.inl h
        · exact Or.inr (Or.inr h)
      · rintro (h | rfl | h)
        · exact Or.inl h
        · exact Or.inl hk
        · exact Or.inr h
    · simp only [if_neg hk, List.mem_append, List.mem_singleton]
      tauto

theorem mem_firstDedup (l : List String) (x : String) :
    x ∈ firstDedup l ↔ x ∈ l := by
  rw [firstDedup, mem_foldl_dedup]
  simp

theorem validateFields_error (ks : List String) (o : Obj) (e : String)
    (h : validateFields ks o = .error e) :
    ∃ k, k ∈ ks ∧ ∃ p v, validators k = some p ∧ jLookup o k = some v ∧
      p v = false ∧ e = "Invalid value for " ++ k := by
  induction ks with
  | nil => simp [validateFields] at h
  | cons k ks ih =>
    rw [validateFields] at h
    split at h
    · obtain ⟨k', hk', rest⟩ := ih h
      exact ⟨k', List.mem_cons_of_mem _ hk', rest⟩
    · next p hval =>
      split at h
      · obtain ⟨k', hk', rest⟩ := ih h
        exact ⟨k', List.mem_cons_of_mem _ hk', rest⟩
      · next v hlv =>
        split at h
        · obtain ⟨k', hk', rest⟩ := ih h
          exact ⟨k', List.mem_cons_of_mem _ hk', rest⟩
        · next hpv =>
          injection h with he
          exact ⟨k, List.mem_cons_self k ks, p, v, hval, hlv,
            by simpa using hpv, he.symm⟩

theorem validateFields_ok_of (ks : List String) (o : Obj)
    (h : ∀ k ∈ ks, ∀ p, validators k = some p →
      ∀ v, jLookup o k = some v → p v = true) :
    validateFields ks o = .ok () := by
  induction ks with
  | nil => rfl
  | cons k ks ih =>
    have htail : ∀ k' ∈ ks, ∀ p, validators k' = some p →
        ∀ v, jLookup o k' = some v → p v = true :=
      fun k' hk' => h k' (List.mem_cons_of_mem _ hk')
    rw [validateFields]
    split
    · exact ih htail
    · next p hval =>
      split
      · exact ih htail
      · next v hlv =>
        rw [if_pos (h k (List.mem_cons_self k ks) p hval v hlv)]
        exact ih htail

theorem validateFields_pass (ks : List String) (o : Obj)
    (h : validateFields ks o = .ok ()) :
    ∀ k ∈ ks, ∀ p, validators k = some p →
      ∀ v, jLookup o k = some v → p v = true := by
  induction ks with
  | nil => intro k hk; cases hk
  | cons k ks ih =>
    intro k' hk' p hp v hv
    rcases List.mem_cons.1 hk' with rfl | hk'
    · rw [validateFields] at h
      rw [hp] at h
      simp only at h
      rw [hv] at h
      simp only at h
      by_cases hpv : p v = true
      · exact hpv
      · rw [if_neg hpv] at h
        cases h
    · rw [validateFields] at h
      split at h
      · exact ih h k' hk' p hp v hv
      · split at h
        · exact ih h k' hk' p hp v hv
        · split at h
          · exact ih h k' hk' p hp v hv
          · cases h

theorem wsOnMessage_fst (now : Nat) (entry : Option WsLimitEntry)
    (st : RegistryState) (msg : WsIncoming) :
    (wsOnMessage now entry st msg).1 = (checkWsRateLimit now entry).1 := by
  cases msg with
  | setConfig data =>
    rw [wsOnMessage.eq_def]
    dsimp only
    split
    · rfl
    · split <;> rfl
  | otherType =>
    rw [wsOnMessage.eq_def]
    dsimp only
    split <;> rfl
  | malformed e =>
    rw [wsOnMessage.eq_def]
    dsimp only
    split <;> rfl

theorem checkWs_noReset (now c r : Nat) (h : now < r) :
    checkWsRateLimit now (some ⟨c, r⟩) =
      (⟨c + 1, r⟩, decide (c + 1 ≤ WS_RATE_LIMIT)) := by
  simp [checkWsRateLimit, Nat.not_le.2 h]

theorem checkWs_fresh (now : Nat) :
    checkWsRateLimit now none = (⟨1, now + WS_WINDOW_MS⟩, true) := by
  have h : ¬ now + WS_WINDOW_MS ≤ now := by
    simp [WS_WINDOW_MS]
  simp [checkWsRateLimit, h, WS_RATE_LIMIT]

theorem wsFold_count (rest : List (Nat × WsIncoming)) :
    ∀ (c r : Nat) (st : RegistryState) (effs : List WsEffects),
      (∀ p ∈ rest, p.1 < r) →
      (rest.foldl wsRunStep (some ⟨c, r⟩, st, effs)).1 =
        some ⟨c + rest.length, r⟩ := by
  induction rest with
  | nil => intro c r st effs _; simp
  | cons hd tl ih =>
    intro c r st effs hin
    have hhd : hd.1 < r := hin hd (List.mem_cons_self _ _)
    rw [List.foldl_cons]
    have h1 : (wsRunStep (some ⟨c, r⟩, st, effs) hd).1 = some ⟨c + 1, r⟩ := by
      rw [wsRunStep]
      dsimp only
      rw [wsOnMessage_fst, checkWs_noReset _ _ _ hhd]
    have hsplit : wsRunStep (some ⟨c, r⟩, st, effs) hd =
        (some ⟨c + 1, r⟩,
         (wsRunStep (some ⟨c, r⟩, st, effs) hd).2.1,
         (wsRunStep (some ⟨c, r⟩, st, effs) hd).2.2) := by
      rw [← h1]
    rw [hsplit]
    rw [ih (c + 1) r _ _ (fun p hp => hin p (List.mem_cons_of_mem _ hp))]
    simp only [List.length_cons]
    have harith : c + 1 + tl.length = c + (tl.length + 1) := by omega
    rw [harith]

theorem mem_ite_nil_iff {α : Type} (a : α) (p : Prop) [Decidable p]
    (l : List α) : a ∈ (if p then l else []) ↔ p ∧ a ∈ l := by
  split
  · next h => simp [h]
  · next h => simp [h]

theorem bgImage_not_mem_coreSeg (c : Config) : DrawOp.bgImage ∉ coreSeg c := by
  simp [coreSeg, mem_ite_nil_iff]

theorem logo_not_mem_coreSeg (c : Config) : DrawOp.logo ∉ coreSeg c := by
  simp [coreSeg, mem_ite_nil_iff]

theorem keepOp_of_not_bg_logo (env : DecodeEnv) (op : DrawOp)
    (hb : op.isBg = false) (hl : op.isLogo = false) : keepOp env op = true := by
  simp [keepOp, hb, hl]

theorem isBg_eq_true_iff (op : DrawOp) : op.isBg = true ↔ op = .bgImage := by
  cases op <;> simp [DrawOp.isBg]

theorem isLogo_eq_true_iff (op : DrawOp) : op.isLogo = true ↔ op = .logo := by
  cases op <;> simp [DrawOp.isLogo]

theorem filter_coreSeg (c : Config) (env : DecodeEnv) :
    (coreSeg c).filter (keepOp env) = coreSeg c := by
  apply List.filter_eq_self.2
  intro op hop
  apply keepOp_of_not_bg_logo
  · rcases hb : op.isBg with _ | _
    · rfl
    · exact absurd ((isBg_eq_true_iff op).1 hb ▸ hop) (bgImage_not_mem_coreSeg c)
  · rcases hl : op.isLogo with _ | _
    · rfl
    · exact absurd ((isLogo_eq_true_iff op).1 hl ▸ hop) (logo_not_mem_coreSeg c)

theorem filter_bgSeg (c : Config) (env : DecodeEnv) :
    (bgSeg c ⟨true, true⟩).filter (keepOp env) = bgSeg c env := by
  cases htr : strOptTruthy c.bgImageBase64 <;>
    cases hbg : env.bgOk <;>
      simp [bgSeg, htr, hbg, keepOp, DrawOp.isBg, DrawOp.isLogo, List.filter]

theorem filter_logoSeg (c : Config) (env : DecodeEnv) :
    (logoSeg c ⟨true, true⟩).filter (keepOp env) = logoSeg c env := by
  rw [logoSeg, logoSeg]
  cases hlk : env.logoOk <;>
    split_ifs <;>
      simp_all [keepOp, DrawOp.isBg, DrawOp.isLogo, List.filter]

theorem digitsRevAux_length (fuel : Nat) :
    ∀ n k, 0 < k → n < 10 ^ k → n ≤ fuel →
      (digitsRevAux fuel n).length ≤ k := by
  induction fuel with
  | zero =>
    intro n k hk _ _
    simp only [digitsRevAux, List.length_singleton]
    omega
  | succ fuel ih =>
    intro n k hk hn hf
    rw [digitsRevAux]
    split
    · simp only [List.length_singleton]
      omega
    · next h10 =>
      have hk2 : 2 ≤ k := by
        by_contra hlt
        have : k = 1 := by omega
        subst this
        simp only [pow_one] at hn
        omega
      have hdiv : n / 10 < 10 ^ (k - 1) := by
        rw [Nat.div_lt_iff_lt_mul (by norm_num)]
        calc n < 10 ^ k := hn
        _ = 10 ^ (k - 1) * 10 := by
              rw [← pow_succ]
              congr 1
              omega
      have hfuel : n / 10 ≤ fuel := by
        have : n / 10 < n := Nat.div_lt_self (by omega) (by norm_num)
        omega
      have := ih (n / 10) (k - 1) (by omega) hdiv hfuel
      simp only [List.length_cons]
      omega

theorem digitsRevAux_lt_ten (fuel : Nat) :
    ∀ n, n ≤ fuel → ∀ d ∈ digitsRevAux fuel n, d < 10 := by
  induction fuel with
  | zero =>
    intro n hn d hd
    simp only [digitsRevAux, List.mem_singleton] at hd
    omega
  | succ fuel ih =>
    intro n hn d hd
    rw [digitsRevAux] at hd
    split at hd
    · next h10 =>
      simp only [List.mem_singleton] at hd
      omega
    · next h10 =>
      rcases List.mem_cons.1 hd with rfl | hd
      · exact Nat.mod_lt _ (by norm_num)
      · have hfuel : n / 10 ≤ fuel := by
          have : n / 10 < n := Nat.div_lt_self (by omega) (by norm_num)
          omega
        exact ih (n / 10) hfuel d hd

theorem digitChar_ne_dot (d : Nat) (hd : d < 10) : Nat.digitChar d ≠ '.' := by
  interval_cases d <;> decide

theorem groupThrees_id_of_short (s : List Char) (h3 : s.length ≤ 3) :
    groupThrees s = s := by
  match s with
  | [] => rfl
  | [a] => simp [groupThrees, List.enum, List.enumFrom, sepBlock]
  | [a, b] => simp [groupThrees, List.enum, List.enumFrom, sepBlock]
  | [a, b, c] => simp [groupThrees, List.enum, List.enumFrom, sepBlock]
  | _ :: _ :: _ :: _ :: _ =>
    simp only [List.length_cons] at h3
    omega

theorem groupThrees_short (s : List Char) (h3 : s.length ≤ 3)
    (hd : ∀ c ∈ s, c ≠ '.') : '.' ∉ groupThrees s := by
  rw [groupThrees_id_of_short s h3]
  intro h
  exact hd '.' h rfl

theorem barFill_not_mem_bgSeg (c : Config) (env : DecodeEnv) (x y w hh : ℚ) :
    DrawOp.barFill x y w hh ∉ bgSeg c env := by
  rw [bgSeg]
  split_ifs <;> simp

theorem barFill_not_mem_logoSeg (c : Config) (env : DecodeEnv) (x y w hh : ℚ) :
    DrawOp.barFill x y w hh ∉ logoSeg c env := by
  rw [logoSeg]
  split_ifs <;> simp

theorem barFill_not_mem_coreSeg_of_low (c : Config)
    (hlow : ¬ (1 / 100 : ℚ) < rendPerc c) (x y w hh : ℚ) :
    DrawOp.barFill x y w hh ∉ coreSeg c := by
  have hlow' : ¬ ((100 : ℚ))⁻¹ < rendPerc c := by
    rw [inv_eq_one_div]
    exact hlow
  simp [coreSeg, mem_ite_nil_iff, hlow']

theorem barFill_not_mem_of_low (c : Config) (env : DecodeEnv)
    (hlow : ¬ (1 / 100 : ℚ) < rendPerc c) (x y w hh : ℚ) :
    DrawOp.barFill x y w hh ∉ renderOps c env := by
  intro hmem
  simp only [renderOps, List.mem_append, List.mem_singleton] at hmem
  rcases hmem with ((h | h) | h) | h
  · exact barFill_not_mem_bgSeg c env x y w hh h
  · exact barFill_not_mem_coreSeg_of_low c hlow x y w hh h
  · exact barFill_not_mem_logoSeg c env x y w hh h
  · exact DrawOp.noConfusion h

theorem rendPerc_default : rendPerc defaultConfig = 25 / 2026 := by
  norm_num [rendPerc, jsOr, jsParseInt, defaultConfig, min_def]

theorem percStr_default : percStr defaultConfig = "1%" := by
  rw [percStr, rendPerc_default]
  have h : jsRound (25 / 2026 * 100) = 1 := by
    rw [jsRound]
    norm_num
  rw [h]
  rfl

/-- Claim C1: a write whose merged configuration fails validation — via
`POST /api/config` or a push `SET_CONFIG` message that is within the rate
limit — fails with an error naming an offending field of the merge, and
leaves the registry (the state read by `GET /api/config` and by the
render path) exactly as it was: a rejected write has zero observable
effect. -/
theorem c1_rejected_write_atomic (st : RegistryState) (body : Obj) (e : String)
    (h : validateConfig (jsSpread DEFAULT_CONFIG body) = .error e) :
    postConfigHandler st body = (st, PostResponse.badRequest e) ∧
    getConfigHandler (postConfigHandler st body).1 = getConfigHandler st ∧
    (∀ now entry, (checkWsRateLimit now entry).2 = true →
      wsOnMessage now entry st (.setConfig body) =
        ((checkWsRateLimit now entry).1, st, ⟨some e, false, false⟩)) ∧
    ∃ k, k ∈ jKeys (jsSpread DEFAULT_CONFIG body) ∧
      e = "Invalid value for " ++ k := by
  have hpost : postConfigHandler st body = (st, PostResponse.badRequest e) := by
    rw [postConfigHandler]
    rw [h]
  refine ⟨hpost, by rw [hpost], ?_, ?_⟩
  · intro now entry hok
    rw [wsOnMessage.eq_def]
    dsimp only
    simp only [hok, Bool.not_true, Bool.false_eq_true, if_false]
    rw [h]
  · rw [validateConfig] at h
    obtain ⟨k, hk, p, v, hval, hlv, hpv, he⟩ := validateFields_error _ _ _ h
    exact ⟨k, (mem_firstDedup _ _).1 hk, he⟩

/-- Witness for C1: posting `color: "not-a-color"` against the initial
default registry is rejected naming `color`, leaving the state intact. -/
theorem c1_witness :
    postConfigHandler ⟨DEFAULT_CONFIG, true⟩ [("color", JVal.str "not-a-color")] =
      (⟨DEFAULT_CONFIG, true⟩, PostResponse.badRequest "Invalid value for color") :=
  (c1_rejected_write_atomic ⟨DEFAULT_CONFIG, true⟩
    [("color", JVal.str "not-a-color")] "Invalid value for color" (by rfl)).1

/-- Claim C3 (counterexample): merging a partial input carrying the
unrecognized key `bgImageBase64` yields an object whose key set is NOT
the canonical default's key set — the spread keeps the extra key, so the
claimed key-set equality fails at this input. -/
theorem c3_counterexample :
    "bgImageBase64" ∈
      jKeys (jsSpread DEFAULT_CONFIG [("bgImageBase64", JVal.str "x")]) ∧
    "bgImageBase64" ∉ jKeys DEFAULT_CONFIG := by
  constructor
  · decide
  · decide

/-- Claim C3 (amended): merging a partial input with the canonical
defaults yields an object whose key set is the UNION of the default key
set and the partial's key set, and each field's value is taken from the
partial when present there and from the defaults otherwise. -/
theorem c3_merge_spec (p : Obj) (k : String) :
    (k ∈ jKeys (jsSpread DEFAULT_CONFIG p) ↔
      k ∈ jKeys DEFAULT_CONFIG ∨ k ∈ jKeys p) ∧
    jLookup (jsSpread DEFAULT_CONFIG p) k =
      (match jLookup p k with
       | some v => some v
       | none => jLookup DEFAULT_CONFIG k) := by
  constructor
  · rw [jsSpread, jKeys_append, List.mem_append]
  · rw [jsSpread, jLookup_append]

/-- Claim C9: the canonical default configuration passes the validator —
every recognized field present in `DEFAULT_CONFIG` satisfies its
per-field predicate, `validateConfig` accepts the object, and a write
whose partial input is the empty object is always accepted. -/
theorem c9_default_config_validates :
    validateConfig DEFAULT_CONFIG = .ok () ∧
    (jKeys DEFAULT_CONFIG).all (fieldOk DEFAULT_CONFIG) = true ∧
    ∀ st : RegistryState,
      postConfigHandler st [] = (⟨jsSpread DEFAULT_CONFIG [], false⟩, .ok) := by
  refine ⟨rfl, rfl, ?_⟩
  intro st
  rfl

/-- Claim C10: `validateConfig` raises an error exactly when its argument
is not an object, or some field present in both the object and the
validator table fails its predicate; consequently an object whose keys
are all unrecognized (in particular the empty object) always validates. -/
theorem c10_validate_error_iff :
    (∀ inp : JInput, (∃ e, validateConfigTop inp = .error e) ↔
      (inp.isObj = false ∨
        ∃ o k p v, inp = .object o ∧ validators k = some p ∧
          jLookup o k = some v ∧ p v = false)) ∧
    (∀ o : Obj, (jKeys o).all (fun k => (validators k).isNone) = true →
      validateConfig o = .ok ()) := by
  constructor
  · intro inp
    cases inp with
    | prim v => simp [validateConfigTop, JInput.isObj]
    | object o =>
      simp only [validateConfigTop, JInput.isObj]
      constructor
      · rintro ⟨e, he⟩
        rw [validateConfig] at he
        obtain ⟨k, hk, p, v, hval, hlv, hpv, _⟩ := validateFields_error _ _ _ he
        exact Or.inr ⟨o, k, p, v, rfl, hval, hlv, hpv⟩
      · rintro (h | ⟨o', k, p, v, ho, hval, hlv, hpv⟩)
        · cases h
        · obtain rfl : o' = o := by
            injection ho with h1
            exact h1.symm
          cases hres : validateConfig o' with
          | ok u =>
            exfalso
            cases u
            rw [validateConfig] at hres
            have hmem : k ∈ firstDedup (jKeys o') := by
              rw [mem_firstDedup, ← jLookup_isSome_iff, hlv]
              rfl
            have hp := validateFields_pass _ _ hres k hmem p hval v hlv
            rw [hp] at hpv
            cases hpv
          | error e => exact ⟨e, rfl⟩
  · intro o hall
    rw [validateConfig]
    apply validateFields_ok_of
    intro k hk p hp v _
    exfalso
    have hk' : k ∈ jKeys o := (mem_firstDedup _ _).1 hk
    have hnone := List.all_eq_true.1 hall k hk'
    rw [hp] at hnone
    cases hnone

/-- Witness for C10: an object with one unrecognized key validates. -/
theorem c10_witness :
    validateConfig [("zzz", JVal.num 1)] = .ok () :=
  c10_validate_error_iff.2 [("zzz", JVal.num 1)] (by decide)

/-- Claim C5: a push connection sending 11 messages inside one fixed
1-second window (limit `WS_RATE_LIMIT = 10` per window) has its 11th
message answered with the in-band rate-limit error on that connection
only (no broadcast), the connection is not closed, and the shared
configuration is exactly what it was after the first ten messages — the
11th message does not modify it. -/
theorem c5_eleventh_message_rate_limited (st0 : RegistryState) (t1 : Nat)
    (m1 : WsIncoming) (rest : List (Nat × WsIncoming)) (t11 : Nat)
    (m11 : WsIncoming) (hlen : rest.length = 9)
    (hin : ∀ p ∈ rest, p.1 < t1 + WS_WINDOW_MS)
    (h11 : t11 < t1 + WS_WINDOW_MS) :
    wsRun st0 (((t1, m1) :: rest) ++ [(t11, m11)]) =
      (some ⟨11, t1 + WS_WINDOW_MS⟩,
       (wsRun st0 ((t1, m1) :: rest)).2.1,
       (wsRun st0 ((t1, m1) :: rest)).2.2 ++
         [⟨some "Rate limit exceeded. Please slow down.", false, false⟩]) := by
  have hfst : (wsRun st0 ((t1, m1) :: rest)).1 = some ⟨10, t1 + WS_WINDOW_MS⟩ := by
    rw [wsRun, List.foldl_cons]
    have h1 : (wsRunStep (none, st0, []) (t1, m1)).1 =
        some ⟨1, t1 + WS_WINDOW_MS⟩ := by
      rw [wsRunStep]
      dsimp only
      rw [wsOnMessage_fst, checkWs_fresh]
    have hsplit : wsRunStep ((none : Option WsLimitEntry), st0,
        ([] : List WsEffects)) (t1, m1) =
          (some ⟨1, t1 + WS_WINDOW_MS⟩,
           (wsRunStep (none, st0, []) (t1, m1)).2.1,
           (wsRunStep (none, st0, []) (t1, m1)).2.2) := by
      rw [← h1]
    rw [hsplit, wsFold_count rest 1 (t1 + WS_WINDOW_MS) _ _ hin, hlen]
  rw [wsRun, List.foldl_append]
  rw [show ((t1, m1) :: rest).foldl wsRunStep ((none : Option WsLimitEntry),
    st0, ([] : List WsEffects)) = wsRun st0 ((t1, m1) :: rest) from rfl]
  rw [List.foldl_cons, List.foldl_nil]
  have hsplit2 : wsRun st0 ((t1, m1) :: rest) =
      (some ⟨10, t1 + WS_WINDOW_MS⟩,
       (wsRun st0 ((t1, m1) :: rest)).2.1,
       (wsRun st0 ((t1, m1) :: rest)).2.2) := by
    rw [← hfst]
  rw [hsplit2, wsRunStep]
  dsimp only
  rw [wsOnMessage.eq_def]
  rw [checkWs_noReset t11 10 (t1 + WS_WINDOW_MS) h11]
  norm_num [WS_RATE_LIMIT]

/-- Witness for C5: eleven messages at concrete times inside the window
starting at time 0; the 11th is rate-limited and leaves the registry as
after the tenth. -/
theorem c5_witness :
    wsRun ⟨DEFAULT_CONFIG, true⟩
        (((0, WsIncoming.otherType) ::
            List.replicate 9 (0, WsIncoming.otherType)) ++
          [(999, WsIncoming.otherType)]) =
      (some ⟨11, 0 + WS_WINDOW_MS⟩,
       (wsRun ⟨DEFAULT_CONFIG, true⟩
          ((0, WsIncoming.otherType) ::
            List.replicate 9 (0, WsIncoming.otherType))).2.1,
       (wsRun ⟨DEFAULT_CONFIG, true⟩
          ((0, WsIncoming.otherType) ::
            List.replicate 9 (0, WsIncoming.otherType))).2.2 ++
         [⟨some "Rate limit exceeded. Please slow down.", false, false⟩]) :=
  c5_eleventh_message_rate_limited ⟨DEFAULT_CONFIG, true⟩ 0 .otherType
    (List.replicate 9 (0, .otherType)) 999 .otherType
    (by simp)
    (by
      intro p hp
      rw [List.eq_of_mem_replicate hp]
      norm_num [WS_WINDOW_MS])
    (by norm_num [WS_WINDOW_MS])

/-- Claim C2 (counterexample): with `km = 0.5` and `target = 1` — both
accepted by the validator, which allows any `km` in `[0, 1000000]` — the
rendered progress is `0`, not `min(km / target, 1) = 1/2`: the renderer
passes the distance through `parseInt`, which truncates it first. -/
theorem c2_counterexample :
    0 < ({ defaultConfig with km := 1 / 2, target := 1 } : Config).target ∧
    rendPerc { defaultConfig with km := 1 / 2, target := 1 } ≠
      min (({ defaultConfig with km := 1 / 2, target := 1 } : Config).km /
             ({ defaultConfig with km := 1 / 2, target := 1 } : Config).target)
        1 := by
  constructor
  · norm_num
  · norm_num [rendPerc, jsOr, jsParseInt, min_def]

/-- Claim C2 (amended): for every configuration with positive target
whose distance `km` is a natural number, the rendered progress equals
`min(km / target, 1)`; `parseInt` truncation is the identity on integer
distances, but not on fractional ones. -/
theorem c2_progress_formula (c : Config) (n : ℕ) (hkm : c.km = n)
    (ht : 0 < c.target) : rendPerc c = min (c.km / c.target) 1 := by
  rw [rendPerc]
  have h1 : jsOr c.km 0 = c.km := by
    rw [jsOr]
    split <;> simp_all
  rw [h1, hkm, jsParseInt, Int.floor_natCast, Int.cast_natCast]

/-- Witness for C2 (amended): the default configuration has the integer
distance 25, and its rendered progress is `min(25 / 2026, 1)`. -/
theorem c2_witness :
    rendPerc defaultConfig = min (defaultConfig.km / defaultConfig.target) 1 :=
  c2_progress_formula defaultConfig 25 (by norm_num [defaultConfig])
    (by norm_num [defaultConfig])

/-- Claim C4 (counterexample): with `km = 1` and `target = 1000` the
progress `1/1000` is non-zero, yet the renderer draws no filled bar
portion at all: the fill is gated on the progress exceeding `0.01`, so
the claimed guarantee for every non-zero progress fails at this input. -/
theorem c4_counterexample :
    0 < rendPerc { defaultConfig with km := 1, target := 1000 } ∧
    ∀ x y w h, DrawOp.barFill x y w h ∉
      renderOps { defaultConfig with km := 1, target := 1000 } ⟨true, true⟩ := by
  have hp : rendPerc { defaultConfig with km := 1, target := 1000 } =
      1 / 1000 := by
    norm_num [rendPerc, jsOr, jsParseInt, min_def]
  constructor
  · rw [hp]
    norm_num
  · intro x y w h
    apply barFill_not_mem_of_low
    rw [hp]
    norm_num

/-- Claim C4 (amended): for every configuration and decode outcome, when
the progress ratio exceeds the epsilon `0.01` the renderer draws the
filled bar portion with width `max(trackWidth · progress, 54)`, so any
progress above one percent is never visually invisible; progress in
`(0, 0.01]` draws no fill. -/
theorem c4_fill_above_epsilon (c : Config) (env : DecodeEnv)
    (h : (1 / 100 : ℚ) < rendPerc c) :
    DrawOp.barFill (barX c) (barY c) (max (barW c * rendPerc c) 54) 55 ∈
      renderOps c env := by
  have h' : ((100 : ℚ))⁻¹ < rendPerc c := by
    rw [inv_eq_one_div]
    exact h
  have hcore : DrawOp.barFill (barX c) (barY c)
      (max (barW c * rendPerc c) 54) 55 ∈ coreSeg c := by
    simp [coreSeg, mem_ite_nil_iff, h']
  simp [renderOps, List.mem_append, hcore]

/-- Witness for C4 (amended): the default configuration's progress
`25/2026` exceeds one percent, and its fill operation is drawn. -/
theorem c4_witness :
    DrawOp.barFill (barX defaultConfig) (barY defaultConfig)
        (max (barW defaultConfig * rendPerc defaultConfig) 54) 55 ∈
      renderOps defaultConfig ⟨true, true⟩ :=
  c4_fill_above_epsilon defaultConfig ⟨true, true⟩
    (by rw [rendPerc_default]; norm_num)

/-- Claim C6: rendering the canonical default configuration
(`target = 2026`, `km = 25`) draws the circular badge, and its
percentage caption reads `"1%"`: `round(min(25/2026, 1) · 100) = 1`. -/
theorem c6_default_badge_one_percent :
    jsRound (min ((25 : ℚ) / 2026) 1 * 100) = 1 ∧
    DrawOp.badgeCircle (badgeX defaultConfig) (badgeY defaultConfig)
        (95 * cardWScale defaultConfig) ∈
      renderOps defaultConfig ⟨true, true⟩ ∧
    DrawOp.percText "1%" (badgeX defaultConfig) (badgeY defaultConfig + 5) ∈
      renderOps defaultConfig ⟨true, true⟩ := by
  refine ⟨?_, ?_, ?_⟩
  · have hmin : min ((25 : ℚ) / 2026) 1 = 25 / 2026 := by
      rw [min_eq_left]
      norm_num
    rw [hmin, jsRound]
    norm_num
  · have hmem : DrawOp.badgeCircle (badgeX defaultConfig)
        (badgeY defaultConfig) (95 * cardWScale defaultConfig) ∈
          coreSeg defaultConfig := by
      simp [coreSeg, mem_ite_nil_iff]
    simp [renderOps, List.mem_append, hmem]
  · have hmem : DrawOp.percText (percStr defaultConfig)
        (badgeX defaultConfig) (badgeY defaultConfig + 5) ∈
          coreSeg defaultConfig := by
      simp [coreSeg, mem_ite_nil_iff]
    rw [← percStr_default]
    simp [renderOps, List.mem_append, hmem]

/-- Claim C8: for every configuration and any decode outcomes, the render
runs to its final serialisation (the image bytes are produced), and a
failed background or logo decode removes exactly the corresponding
drawing operations from the fully successful render — every other
operation is unaffected, and neither failure aborts the render. -/
theorem c8_decode_failure_degrades (c : Config) (env : DecodeEnv) :
    DrawOp.toBuffer ∈ renderOps c env ∧
    renderOps c env = (renderOps c ⟨true, true⟩).filter (keepOp env) := by
  constructor
  · simp [renderOps, List.mem_append]
  · rw [renderOps, renderOps]
    rw [List.filter_append, List.filter_append, List.filter_append]
    rw [filter_bgSeg, filter_coreSeg, filter_logoSeg]
    simp [List.filter, keepOp, DrawOp.isBg, DrawOp.isLogo]

/-- Claim C7: the display formatter groups digits in threes from the
right with `"."` as separator: `formatNumber(1234567) = "1.234.567"`,
and for every natural number below 1000 the output contains no
separator. -/
theorem c7_format_number :
    formatNumber 1234567 = "1.234.567" ∧
    ∀ n : Nat, n < 1000 → '.' ∉ (formatNumber n).toList := by
  constructor
  · rfl
  · intro n hn
    rw [formatNumber]
    split
    · decide
    · have hlen : (natToChars n).length ≤ 3 := by
        rw [natToChars, List.length_map, List.length_reverse, digitsRev]
        exact digitsRevAux_length n n 3 (by norm_num) (by simpa using hn)
          le_rfl
      have hdig : ∀ ch ∈ natToChars n, ch ≠ '.' := by
        intro ch hch
        rw [natToChars] at hch
        obtain ⟨d, hd, rfl⟩ := List.mem_map.1 hch
        have hd' : d ∈ digitsRev n := List.mem_reverse.1 hd
        exact digitChar_ne_dot d (digitsRevAux_lt_ten n n le_rfl d hd')
      have hne := groupThrees_short (natToChars n) hlen hdig
      have htl : (String.mk (groupThrees (natToChars n))).toList =
          groupThrees (natToChars n) := rfl
      rw [htl]
      exact hne

/-- Witness for C7: a three-digit number is formatted without any
separator. -/
theorem c7_witness : '.' ∉ (formatNumber 999).toList :=
  c7_format_number.2 999 (by norm_num)
